import Mathlib

/-!
Shallow embedding of the AI call-center core: the conversation flow engine
(`src/ai_engine/conversation.py`, class `ConversationManager`) and the call
session orchestrator (`src/telephony/call_manager.py`, class `CallManager`).

Python dicts keyed by strings are modelled as association lists
(`List (String × α)`) with `upsert` mirroring dict assignment and
`remove_key` mirroring `dict.pop`.  `datetime.now()` is modelled by an
explicit `now : Nat` argument per operation, and `uuid.uuid4()` /
generated call ids by explicit fresh-id arguments.  External collaborators
(NLP engine, sentiment analyzer, `random.choice` response selection,
speech-to-text, telephony dial and stop-recording) are parameters gathered
in an `Env` record; collaborator calls whose results the Python code
ignores (answer, hangup, transfer, start-recording, speech synthesis) have
no effect on the manager state and are omitted.  Floating-point scores are
modelled as rationals.
-/

namespace AICallCenter

/-- Dict assignment `m[k] = v`: replace the binding if the key is present,
otherwise append it. -/
def upsert {α : Type} (m : List (String × α)) (k : String) (v : α) :
    List (String × α) :=
  match m with
  | [] => [(k, v)]
  | (k', v') :: rest =>
    if k' = k then (k, v) :: rest else (k', v') :: upsert rest k v

/-- Dict `pop`: remove the binding for a key. -/
def remove_key {α : Type} (m : List (String × α)) (k : String) :
    List (String × α) :=
  match m with
  | [] => []
  | (k', v') :: rest =>
    if k' = k then rest else (k', v') :: remove_key rest k

/-- One state of a conversation flow: candidate response texts and the
ordered list of eligible next states (`_load_flows` entries). -/
structure StateDef where
  responses : List String
  next_states : List String
  deriving DecidableEq

/-- A conversation flow: mapping from state name to its definition. -/
abbrev Flow := List (String × StateDef)

/-- The `"default"` flow from `ConversationManager._load_flows`. -/
def default_flow : Flow :=
  [ ("greeting",
      ⟨[ "Hello! Thank you for calling. How can I assist you today?",
         "Hi there! How may I help you today?",
         "Welcome! What can I do for you?" ],
       ["information", "booking", "complaint", "farewell"]⟩),
    ("information",
      ⟨[ "I'd be happy to provide that information. What specifically would you like to know?",
         "I can help with that. Could you please specify what information you're looking for?" ],
       ["information_detail", "booking", "complaint", "farewell"]⟩),
    ("booking",
      ⟨[ "I can help you schedule that. When would you like to book it?",
         "I'd be happy to assist with booking. What date works best for you?" ],
       ["booking_confirmation", "information", "complaint", "farewell"]⟩),
    ("complaint",
      ⟨[ "I'm sorry to hear that. Could you please provide more details about the issue?",
         "I apologize for the inconvenience. Please tell me more about what happened." ],
       ["complaint_resolution", "transfer", "farewell"]⟩),
    ("farewell",
      ⟨[ "Thank you for calling. Have a great day!",
         "Is there anything else I can help you with before we end the call?",
         "Thank you for your time. Goodbye!" ],
       []⟩),
    ("transfer",
      ⟨[ "I'll connect you with a human representative right away. Please hold.",
         "I understand you'd like to speak with a person. I'm transferring you now." ],
       []⟩) ]

/-- The `"real_estate"` flow from `_load_flows`. -/
def real_estate_flow : Flow :=
  [ ("greeting",
      ⟨[ "Hello! Thank you for calling our real estate service. How can I assist you today?",
         "Welcome to our real estate hotline. How may I help you?" ],
       ["property_inquiry", "viewing_schedule", "price_inquiry", "farewell"]⟩),
    ("property_inquiry",
      ⟨[ "I'd be happy to tell you about our properties. What area are you interested in?",
         "We have several properties available. Are you looking for a specific location or type of property?" ],
       ["property_detail", "viewing_schedule", "price_inquiry", "farewell"]⟩) ]

/-- The `"customer_support"` flow from `_load_flows`. -/
def customer_support_flow : Flow :=
  [ ("greeting",
      ⟨[ "Hello! Thank you for calling customer support. How can I assist you today?",
         "Welcome to customer support. How may I help you?" ],
       ["issue_report", "account_inquiry", "product_inquiry", "farewell"]⟩),
    ("issue_report",
      ⟨[ "I'm sorry to hear you're experiencing an issue. Could you please describe the problem?",
         "I'd be happy to help resolve your issue. What seems to be the problem?" ],
       ["troubleshooting", "escalation", "farewell"]⟩) ]

/-- `self.flows`: the static flow table loaded by `_load_flows`. -/
def flows : List (String × Flow) :=
  [ ("default", default_flow),
    ("real_estate", real_estate_flow),
    ("customer_support", customer_support_flow) ]

/-- `self.flows.get(flow_type, self.flows["default"])`. -/
def get_flow (flow_type : String) : Flow :=
  (flows.lookup flow_type).getD default_flow

/-- `flow.get(state, flow["greeting"])`.  Every flow in the static table
defines `"greeting"`, so the inner `⟨[], []⟩` default (standing for the
`KeyError` Python would raise) is unreachable on the table above. -/
def state_of (flow : Flow) (state : String) : StateDef :=
  (flow.lookup state).getD ((flow.lookup "greeting").getD ⟨[], []⟩)

/-- Per-turn metadata recorded by `_add_to_history` for user turns:
the values of `nlp_result.get("intent")` and
`sentiment_result.get("sentiment")`. -/
structure TurnMeta where
  intent : Option String
  sentiment : Option String
  deriving DecidableEq

/-- One history entry built by `_add_to_history`. -/
structure Turn where
  speaker : String
  text : String
  timestamp : Nat
  metadata : TurnMeta
  deriving DecidableEq

/-- The context dict passed around by callers; the conversation and call
managers read exactly these keys from it. -/
structure Ctx where
  conversation_id : Option String
  flow_type : Option String
  call_id : Option String
  direction : Option String
  input_type : Option String
  deriving DecidableEq

/-- The empty context dict (`context or {}`). -/
def Ctx.empty : Ctx :=
  ⟨none, none, none, none, none⟩

/-- A conversation instance as stored in `active_conversations`. -/
structure Conversation where
  id : String
  flow_type : String
  state : String
  history : List Turn
  context : Ctx
  created_at : Nat
  last_updated : Nat
  deriving DecidableEq

/-- Result dict of the NLP collaborator `nlp_engine.process`; the
conversation manager reads it only through `.get`, so fields are
optional. -/
structure NLPResult where
  intent : Option String
  entities : List (String × String)
  deriving DecidableEq

/-- Result dict of the sentiment collaborator `sentiment_analyzer.analyze`. -/
structure SentimentResult where
  sentiment : Option String
  score : Option ℚ
  deriving DecidableEq

/-- Successful result dict of the telephony `make_call` collaborator
(the fields `call_manager.make_outbound_call` reads). -/
structure DialInfo where
  call_id : String
  from_number : String
  to_number : String
  deriving DecidableEq

/-- External collaborators, fixed at construction time. `pick` stands for
`random.choice` over the candidate responses; `transcribe` returns either
an error or the transcribed text; `stop_recording` returns the recording
url when the telephony service reports one. -/
structure Env where
  nlp_process : String → Ctx → NLPResult
  sentiment_analyze : String → SentimentResult
  pick : List String → String
  transcribe : String → Except String String
  make_call : String → Except String DialInfo
  stop_recording : String → Option String

/-- The mutable state of a `ConversationManager`: its
`active_conversations` dict. -/
structure ConvMgr where
  active_conversations : List (String × Conversation)
  deriving DecidableEq

/-- `_get_response`: pick a response for the given flow type and state,
with the `get_flow` / `state_of` fallbacks. -/
def get_response (pick : List String → String) (flow_type state : String) :
    String :=
  pick (state_of (get_flow flow_type) state).responses

/-- `_add_to_history`: append one turn to a conversation's history. -/
def add_to_history (conversation : Conversation) (speaker text : String)
    (now : Nat) (metadata : TurnMeta) : Conversation :=
  { conversation with
    history := conversation.history ++ [⟨speaker, text, now, metadata⟩] }

/-- `start_conversation`, additionally returning the registry key under
which the (possibly new) conversation is stored — Python mutates the dict
entry in place, so later updates in `process` land at this key. -/
def start_conversation_core (env : Env) (mgr : ConvMgr) (fresh_id : String)
    (now : Nat) (conversation_id : Option String) (flow_type : String)
    (context : Option Ctx) : ConvMgr × String × Conversation :=
  let cid :=
    match conversation_id with
    | none => fresh_id
    | some c => if c = "" then fresh_id else c
  match mgr.active_conversations.lookup cid with
  | some conv => (mgr, cid, conv)
  | none =>
    let ft := if (flows.lookup flow_type).isSome then flow_type else "default"
    let conv : Conversation :=
      { id := cid
        flow_type := ft
        state := "greeting"
        history := []
        context := context.getD Ctx.empty
        created_at := now
        last_updated := now }
    let greeting := get_response env.pick ft "greeting"
    let conv := add_to_history conv "system" greeting now ⟨none, none⟩
    ({ active_conversations := upsert mgr.active_conversations cid conv },
     cid, conv)

/-- `ConversationManager.start_conversation`. -/
def start_conversation (env : Env) (mgr : ConvMgr) (fresh_id : String)
    (now : Nat) (conversation_id : Option String) (flow_type : String)
    (context : Option Ctx) : ConvMgr × Conversation :=
  let r := start_conversation_core env mgr fresh_id now conversation_id
    flow_type context
  (r.1, r.2.2)

/-- The transfer condition of `ConversationManager.process` (line 214):
`intent == "transfer" or sentiment_result.get("sentiment") == "negative"
and sentiment_result.get("score", 0.5) < 0.2` — Python's `and` binds
tighter than `or`. -/
def transfer_check (intent : String) (s : SentimentResult) : Bool :=
  decide (intent = "transfer") ||
    (decide (s.sentiment = some "negative") &&
      decide (s.score.getD (1/2) < (1/5 : ℚ)))

/-- The non-transfer next-state resolution of `process` (lines 224-231). -/
def resolve_next_state (next_states : List String) (intent : String) :
    String :=
  if next_states.contains intent then intent
  else if next_states.contains "information" && intent == "unknown" then
    "information"
  else if 0 < next_states.length then next_states.headD "farewell"
  else "farewell"

/-- The result dict of `ConversationManager.process`. -/
structure ProcessResult where
  conversation_id : String
  intent : String
  entities : List (String × String)
  sentiment : Option String
  sentiment_score : Option ℚ
  response : String
  next_state : String
  transfer_required : Bool
  deriving DecidableEq

/-- `ConversationManager.process`. -/
def process (env : Env) (mgr : ConvMgr) (fresh_id : String) (now : Nat)
    (text : String) (context : Option Ctx) : ConvMgr × ProcessResult :=
  let ctx := context.getD Ctx.empty
  let flow_type := ctx.flow_type.getD "default"
  let r := start_conversation_core env mgr fresh_id now ctx.conversation_id
    flow_type context
  let mgr1 := r.1
  let key := r.2.1
  let conversation := r.2.2
  let nlp_result := env.nlp_process text ctx
  let sentiment_result := env.sentiment_analyze text
  let conversation := add_to_history conversation "user" text now
    ⟨nlp_result.intent, sentiment_result.sentiment⟩
  let current_state := conversation.state
  let intent := nlp_result.intent.getD "unknown"
  let transfer_required := transfer_check intent sentiment_result
  let next_state :=
    if transfer_required then "transfer"
    else
      resolve_next_state
        (state_of (get_flow flow_type) current_state).next_states intent
  let conversation :=
    { conversation with state := next_state, last_updated := now }
  let response := get_response env.pick flow_type next_state
  let conversation := add_to_history conversation "system" response now
    ⟨none, none⟩
  let mgr2 : ConvMgr :=
    { active_conversations :=
        upsert mgr1.active_conversations key conversation }
  (mgr2,
    { conversation_id := conversation.id
      intent := intent
      entities := nlp_result.entities
      sentiment := sentiment_result.sentiment
      sentiment_score := sentiment_result.score
      response := response
      next_state := next_state
      transfer_required := transfer_required })

/-- `ConversationManager.end_conversation`: pop and return the instance,
`None` if absent. -/
def end_conversation (mgr : ConvMgr) (conversation_id : String) :
    ConvMgr × Option Conversation :=
  match mgr.active_conversations.lookup conversation_id with
  | some conv =>
    ({ active_conversations :=
        remove_key mgr.active_conversations conversation_id }, some conv)
  | none => (mgr, none)

/-- `ConversationManager.get_conversation`. -/
def get_conversation (mgr : ConvMgr) (conversation_id : String) :
    Option Conversation :=
  mgr.active_conversations.lookup conversation_id

/-- One transcript entry built by `CallManager._add_to_transcript`. -/
structure Msg where
  speaker : String
  text : String
  timestamp : Nat
  deriving DecidableEq

/-- The `next_action` dict armed after playing a prompt. -/
structure NextAction where
  kind : String
  timeout : Nat
  deriving DecidableEq

/-- A call session dict as stored in `CallManager.call_sessions`.  Keys
Python adds later (`transfer_to`, `transfer_time`, `end_reason`) are
optional fields initialised to `none`. -/
structure CallSession where
  call_id : String
  direction : String
  from_number : Option String
  to_number : Option String
  start_time : Nat
  end_time : Option Nat
  duration : Int
  status : String
  conversation_id : Option String
  flow_type : String
  recording_url : Option String
  transcript : List Msg
  summary : Option String
  next_action : Option NextAction
  transfer_to : Option String
  transfer_time : Option Nat
  end_reason : Option String
  deriving DecidableEq

/-- The configuration values of `CallManager._load_config` that the
modelled operations read. -/
structure CMConfig where
  recording_enabled : Bool
  default_flow_type : String
  default_transfer_number : String
  deriving DecidableEq

/-- The environment-default configuration. -/
def default_config : CMConfig :=
  { recording_enabled := true
    default_flow_type := "default"
    default_transfer_number := "+15551234567" }

/-- The mutable state of a `CallManager`: its configuration, the
`call_sessions` dict, and the owned conversation manager. -/
structure CallMgr where
  config : CMConfig
  call_sessions : List (String × CallSession)
  conv : ConvMgr
  deriving DecidableEq

/-- A freshly constructed `CallManager`. -/
def init_call_manager (config : CMConfig) : CallMgr :=
  { config := config, call_sessions := [], conv := ⟨[]⟩ }

/-- The `call_data` dict handed to `handle_incoming_call`. -/
structure CallData where
  call_id : Option String
  from_number : Option String
  to_number : Option String
  flow_type : Option String
  deriving DecidableEq

/-- `_add_to_transcript`. -/
def add_to_transcript (session : CallSession) (speaker text : String)
    (now : Nat) : CallSession :=
  { session with transcript := session.transcript ++ [⟨speaker, text, now⟩] }

/-- The result dicts returned by `process_speech` / `process_dtmf`:
an error dict, a transfer action, an end-call action, or a continue
action. -/
inductive TurnResult where
  | err (message : String)
  | transfer (transfer_to message : String)
  | end_call (message : String)
  | cont (message next_state : String)
  deriving DecidableEq

/-- `CallManager.handle_incoming_call`. -/
def handle_incoming_call (env : Env) (cm : CallMgr)
    (fresh_call_id fresh_conv_id : String) (now : Nat)
    (call_data : CallData) : CallMgr × CallSession :=
  let call_id :=
    match call_data.call_id with
    | none => fresh_call_id
    | some c => if c = "" then fresh_call_id else c
  let flow_type := call_data.flow_type.getD cm.config.default_flow_type
  let session : CallSession :=
    { call_id := call_id
      direction := "inbound"
      from_number := call_data.from_number
      to_number := call_data.to_number
      start_time := now
      end_time := none
      duration := 0
      status := "initiated"
      conversation_id := none
      flow_type := flow_type
      recording_url := none
      transcript := []
      summary := none
      next_action := none
      transfer_to := none
      transfer_time := none
      end_reason := none }
  let ai_context : Ctx :=
    { conversation_id := none
      flow_type := some flow_type
      call_id := some call_id
      direction := some "inbound"
      input_type := none }
  let sr :=
    start_conversation env cm.conv fresh_conv_id now none flow_type
      (some ai_context)
  let conv1 := sr.1
  let conversation_result := sr.2
  let session := { session with conversation_id := some conversation_result.id }
  let greeting :=
    (conversation_result.history.find? (fun m => m.speaker == "system")).map
      Turn.text
  let session :=
    match greeting with
    | some g =>
      if g = "" then session
      else
        { session with
          transcript := session.transcript ++ [⟨"system", g, now⟩]
          next_action := some ⟨"listen", 5000⟩ }
    | none => session
  ({ cm with
      conv := conv1
      call_sessions := upsert cm.call_sessions call_id session },
   session)

/-- `CallManager.make_outbound_call`. -/
def make_outbound_call (env : Env) (cm : CallMgr) (fresh_conv_id : String)
    (now : Nat) (phone_number : String) (context : Option Ctx) :
    CallMgr × Except String CallSession :=
  match env.make_call phone_number with
  | Except.error e => (cm, Except.error e)
  | Except.ok d =>
    let call_id := d.call_id
    let flow_type :=
      (context.getD Ctx.empty).flow_type.getD cm.config.default_flow_type
    let session : CallSession :=
      { call_id := call_id
        direction := "outbound"
        from_number := some d.from_number
        to_number := some d.to_number
        start_time := now
        end_time := none
        duration := 0
        status := "initiated"
        conversation_id := none
        flow_type := flow_type
        recording_url := none
        transcript := []
        summary := none
        next_action := none
        transfer_to := none
        transfer_time := none
        end_reason := none }
    let session := { session with status := "in-progress" }
    let ai_context : Ctx :=
      { conversation_id := none
        flow_type := some flow_type
        call_id := some call_id
        direction := some "outbound"
        input_type := none }
    let sr :=
      start_conversation env cm.conv fresh_conv_id now none flow_type
        (some ai_context)
    let conv1 := sr.1
    let conversation_result := sr.2
    let session :=
      { session with conversation_id := some conversation_result.id }
    let greeting :=
      (conversation_result.history.find? (fun m => m.speaker == "system")).map
        Turn.text
    let session :=
      match greeting with
      | some g =>
        if g = "" then session
        else
          { session with
            transcript := session.transcript ++ [⟨"system", g, now⟩]
            next_action := some ⟨"listen", 5000⟩ }
      | none => session
    ({ cm with
        conv := conv1
        call_sessions := upsert cm.call_sessions call_id session },
     Except.ok session)

/-- `CallManager._generate_call_summary`. -/
def generate_call_summary (session : CallSession) : String :=
  let transcript := session.transcript
  if transcript.isEmpty then "No transcript available."
  else
    let user_turns :=
      (transcript.filter (fun m => m.speaker == "user")).length
    let system_turns :=
      (transcript.filter (fun m => m.speaker == "system")).length
    let duration_seconds := session.duration.toNat
    let minutes := duration_seconds / 60
    let seconds := duration_seconds % 60
    let summary :=
      s!"Call lasted {minutes} minutes and {seconds} seconds with {user_turns} user turns and {system_turns} system turns. "
    let first_text := (transcript.headD ⟨"", "", 0⟩).text.take 50
    let last_text := (transcript.getLastD ⟨"", "", 0⟩).text.take 50
    let summary :=
      if 0 < transcript.length then
        summary ++ s!"Started with: \"{first_text}...\". "
      else summary
    if 1 < transcript.length then
      summary ++ s!"Ended with: \"{last_text}...\". "
    else summary

/-- `CallManager.end_call`. -/
def end_call (env : Env) (cm : CallMgr) (now : Nat) (call_id : String)
    (reason : Option String) : CallMgr × Except String CallSession :=
  match cm.call_sessions.lookup call_id with
  | none => (cm, Except.error "Call session not found")
  | some session =>
    let session :=
      if cm.config.recording_enabled && session.status != "transferred" then
        match env.stop_recording call_id with
        | some url => { session with recording_url := some url }
        | none => session
      else session
    let end_reason :=
      match reason with
      | none => "normal"
      | some r => if r = "" then "normal" else r
    let session :=
      { session with
        status := "completed"
        end_time := some now
        end_reason := some end_reason }
    let session :=
      { session with duration := (now : Int) - (session.start_time : Int) }
    let session :=
      { session with summary := some (generate_call_summary session) }
    ({ cm with call_sessions := upsert cm.call_sessions call_id session },
     Except.ok session)

/-- `CallManager.process_speech`. -/
def process_speech (env : Env) (cm : CallMgr) (fresh_conv_id : String)
    (now : Nat) (call_id : String) (audio_data : String) :
    CallMgr × TurnResult :=
  match cm.call_sessions.lookup call_id with
  | none => (cm, TurnResult.err "Call session not found")
  | some session =>
    match env.transcribe audio_data with
    | Except.error e => (cm, TurnResult.err e)
    | Except.ok text =>
      let session := add_to_transcript session "user" text now
      let cm := { cm with
        call_sessions := upsert cm.call_sessions call_id session }
      let ai_context : Ctx :=
        { conversation_id := session.conversation_id
          flow_type := some session.flow_type
          call_id := some call_id
          direction := none
          input_type := none }
      let pr :=
        process env cm.conv fresh_conv_id now text (some ai_context)
      let conv1 := pr.1
      let result := pr.2
      let cm := { cm with conv := conv1 }
      if result.transfer_required then
        let transfer_to := cm.config.default_transfer_number
        let transfer_message :=
          s!"Transferring to a human representative at {transfer_to}."
        let session :=
          { session with
            status := "transferred"
            transfer_to := some transfer_to
            transfer_time := some now }
        let session := add_to_transcript session "system" transfer_message now
        let cm := { cm with
          call_sessions := upsert cm.call_sessions call_id session }
        (cm, TurnResult.transfer transfer_to transfer_message)
      else
        let response := result.response
        let session := add_to_transcript session "system" response now
        let cm := { cm with
          call_sessions := upsert cm.call_sessions call_id session }
        if result.next_state = "farewell" then
          let cm1 := (end_call env cm now call_id (some "completed")).1
          (cm1, TurnResult.end_call response)
        else
          let session := { session with next_action := some ⟨"listen", 5000⟩ }
          let cm := { cm with
            call_sessions := upsert cm.call_sessions call_id session }
          (cm, TurnResult.cont response result.next_state)

/-- `CallManager.process_dtmf`. -/
def process_dtmf (env : Env) (cm : CallMgr) (fresh_conv_id : String)
    (now : Nat) (call_id : String) (digits : String) :
    CallMgr × TurnResult :=
  match cm.call_sessions.lookup call_id with
  | none => (cm, TurnResult.err "Call session not found")
  | some session =>
    let session := add_to_transcript session "user" s!"DTMF: {digits}" now
    let cm := { cm with
      call_sessions := upsert cm.call_sessions call_id session }
    let ai_context : Ctx :=
      { conversation_id := session.conversation_id
        flow_type := some session.flow_type
        call_id := some call_id
        direction := none
        input_type := some "dtmf" }
    let text := s!"Pressed {digits}"
    let pr :=
      process env cm.conv fresh_conv_id now text (some ai_context)
    let conv1 := pr.1
    let result := pr.2
    let cm := { cm with conv := conv1 }
    let response := result.response
    let session := add_to_transcript session "system" response now
    let session := { session with next_action := some ⟨"listen", 5000⟩ }
    let cm := { cm with
      call_sessions := upsert cm.call_sessions call_id session }
    (cm, TurnResult.cont response result.next_state)

/-- `CallManager.get_call_session`. -/
def get_call_session (cm : CallMgr) (call_id : String) :
    Except String CallSession :=
  match cm.call_sessions.lookup call_id with
  | none => Except.error "Call session not found"
  | some session => Except.ok session

/-- `CallManager.get_active_calls`: the sessions whose status is not
terminal. -/
def get_active_calls (cm : CallMgr) : List (String × CallSession) :=
  cm.call_sessions.filter
    (fun p => !(["completed", "failed", "transferred"].contains p.2.status))

/-! ### Concrete collaborator environments and runs

Used by counterexamples and by witnesses instantiating the theorems. -/

/-- A baseline collaborator environment: the NLP collaborator extracts
intent `"unknown"`, sentiment is neutral with score 1/2, response
selection takes the first candidate, transcription echoes its input, and
dialing and recording succeed with fixed values. -/
def env_ok : Env :=
  { nlp_process := fun _ _ => ⟨some "unknown", []⟩
    sentiment_analyze := fun _ => ⟨some "neutral", some (1/2)⟩
    pick := fun l => l.headD ""
    transcribe := fun a => Except.ok a
    make_call := fun n => Except.ok ⟨"out1", "+15550000000", n⟩
    stop_recording := fun _ => some "https://example.com/rec.wav" }

/-- Like `env_ok`, but the NLP collaborator extracts intent `"transfer"`
and transcription yields the synthetic DTMF text `"Pressed 5"`. -/
def env_intent_transfer : Env :=
  { env_ok with
    nlp_process := fun _ _ => ⟨some "transfer", []⟩
    transcribe := fun _ => Except.ok "Pressed 5" }

/-- Like `env_ok`, but the NLP collaborator extracts intent `"booking"`. -/
def env_intent_booking : Env :=
  { env_ok with nlp_process := fun _ _ => ⟨some "booking", []⟩ }

/-- Like `env_ok`, but the transcription collaborator fails. -/
def env_stt_down : Env :=
  { env_ok with transcribe := fun _ => Except.error "API key not provided" }

/-- Like `env_ok`, but the telephony dial collaborator fails. -/
def env_dial_error : Env :=
  { env_ok with make_call := fun _ => Except.error "No carrier available" }

/-- Concrete incoming-call data for call id `"c1"`. -/
def incoming_data : CallData :=
  ⟨some "c1", some "+1555000", some "+1555999", none⟩

/-- A freshly constructed call manager with the default configuration. -/
def cm_start : CallMgr := init_call_manager default_config

/-- The incoming call `"c1"` handled at time 10. -/
def run_incoming : CallMgr × CallSession :=
  handle_incoming_call env_ok cm_start "cX" "conv1" 10 incoming_data

/-- The call-manager state holding the live session `"c1"`. -/
def st_one : CallMgr := run_incoming.1

/-- A first `end_call` on `"c1"` at time 100. -/
def first_end : CallMgr × Except String CallSession :=
  end_call env_ok st_one 100 "c1" none

/-- A placeholder session used only as a `getD` default below. -/
def dummy_session : CallSession :=
  ⟨"", "", none, none, 0, none, 0, "", none, "", none, [], none, none,
   none, none, none⟩

/-- The session stored for `"c1"` after the first `end_call`. -/
def first_end_session : CallSession :=
  (first_end.2.toOption).getD dummy_session

/-- A second `end_call` on the already-completed `"c1"` at time 200. -/
def second_end : CallMgr × Except String CallSession :=
  end_call env_ok first_end.1 200 "c1" none

/-- `process_speech` on `"c1"` with a transfer-extracting collaborator;
the transcription yields `"Pressed 5"`. -/
def speech_run : CallMgr × TurnResult :=
  process_speech env_intent_transfer st_one "u2" 20 "c1" "audio-bytes"

/-- `process_dtmf` on `"c1"` with the same transfer-extracting
collaborator and digits `"5"`, feeding the same text `"Pressed 5"` to the
conversation engine. -/
def dtmf_run : CallMgr × TurnResult :=
  process_dtmf env_intent_transfer st_one "u2" 20 "c1" "5"

/-- A conversation in state `"greeting"` registered under key `"k1"`. -/
def conv_greeting : Conversation :=
  ⟨"k1", "default", "greeting", [], Ctx.empty, 0, 0⟩

/-- A conversation in state `"information"` registered under key `"k2"`. -/
def conv_information : Conversation :=
  ⟨"k2", "default", "information", [], Ctx.empty, 0, 0⟩

/-- A conversation manager holding only `conv_greeting`. -/
def mgr_one : ConvMgr := ⟨[("k1", conv_greeting)]⟩

/-- A conversation manager holding only `conv_information`. -/
def mgr_two : ConvMgr := ⟨[("k2", conv_information)]⟩

/-- A context resolving conversation `"k1"` on the default flow. -/
def ctx_k1 : Ctx := ⟨some "k1", some "default", none, none, none⟩

/-- A context resolving conversation `"k2"` on the default flow. -/
def ctx_k2 : Ctx := ⟨some "k2", some "default", none, none, none⟩

/-! ### Helper lemmas -/

theorem lookup_upsert_self {α : Type} (m : List (String × α)) (k : String)
    (v : α) : (upsert m k v).lookup k = some v := by
  induction m with
  | nil => simp [upsert]
  | cons p rest ih =>
    obtain ⟨k', v'⟩ := p
    by_cases hk : k' = k
    · simp [upsert, hk]
    · have hb : (k == k') = false :=
        beq_eq_false_iff_ne.mpr (fun hh => hk hh.symm)
      simp [upsert, hk, List.lookup, hb, ih]

theorem lookup_upsert_ne {α : Type} (m : List (String × α)) (k k2 : String)
    (v : α) (h : ¬ k2 = k) :
    (upsert m k v).lookup k2 = m.lookup k2 := by
  have hb : (k2 == k) = false := beq_eq_false_iff_ne.mpr h
  induction m with
  | nil => simp [upsert, List.lookup, hb]
  | cons p rest ih =>
    obtain ⟨k', v'⟩ := p
    by_cases hk : k' = k
    · subst hk
      simp [upsert, List.lookup, hb]
    · by_cases hk2 : k2 = k'
      · subst hk2
        simp [upsert, hk, List.lookup]
      · have hb2 : (k2 == k') = false := beq_eq_false_iff_ne.mpr hk2
        simp [upsert, hk, List.lookup, hb2, ih]

/-- The four-way tie-break of `resolve_next_state`, in propositional
form. -/
theorem resolve_next_state_eq (N : List String) (intent : String) :
    resolve_next_state N intent =
      (if intent ∈ N then intent
       else if "information" ∈ N ∧ intent = "unknown" then "information"
       else if N = [] then "farewell"
       else N.headD "") := by
  by_cases h1 : intent ∈ N
  · simp [resolve_next_state, List.contains, List.elem_iff, h1]
  · have hc1 : N.contains intent = false := by
      simp [List.contains, List.elem_iff, h1]
    by_cases h2 : "information" ∈ N ∧ intent = "unknown"
    · have hc2 : (N.contains "information" && intent == "unknown") = true := by
        simp [List.contains, List.elem_iff, beq_iff_eq]
        exact ⟨h2.1, h2.2⟩
      simp [resolve_next_state, hc1, hc2, h1, h2]
    · have hc2 : (N.contains "information" && intent == "unknown")
          = false := by
        simp only [Bool.and_eq_false_iff]
        by_cases hm : "information" ∈ N
        · right
          have hu : ¬ intent = "unknown" := fun hu => h2 ⟨hm, hu⟩
          simp [beq_iff_eq, hu]
        · left
          simp [List.contains, List.elem_iff, hm]
      cases N with
      | nil => simp [resolve_next_state, h1, h2]
      | cons x xs => simp [resolve_next_state, hc1, hc2, h1, h2]

/-- `start_conversation_core` on an id already in the active set is pure
retrieval. -/
theorem start_core_existing (env : Env) (mgr : ConvMgr) (fresh_id : String)
    (now : Nat) (cid : String) (flow_type : String) (context : Option Ctx)
    (conv : Conversation) (hne : ¬ cid = "")
    (h : mgr.active_conversations.lookup cid = some conv) :
    start_conversation_core env mgr fresh_id now (some cid) flow_type context
      = (mgr, cid, conv) := by
  simp [start_conversation_core, hne, h]

/-- After `start_conversation_core` with a supplied non-empty id, the
returned conversation is registered under that id. -/
theorem start_core_registers (env : Env) (mgr : ConvMgr) (fresh_id : String)
    (now : Nat) (cid : String) (flow_type : String) (context : Option Ctx)
    (hne : ¬ cid = "") :
    ((start_conversation_core env mgr fresh_id now (some cid) flow_type
        context).1.active_conversations.lookup cid =
      some (start_conversation_core env mgr fresh_id now (some cid)
        flow_type context).2.2) ∧
    ((start_conversation_core env mgr fresh_id now (some cid) flow_type
        context).2.1 = cid) := by
  cases h : mgr.active_conversations.lookup cid with
  | some conv => simp [start_conversation_core, hne, h]
  | none => simp [start_conversation_core, hne, h, lookup_upsert_self]

/-- Full characterisation of `process` on an existing conversation. -/
theorem process_existing (env : Env) (mgr : ConvMgr) (fresh_id : String)
    (now : Nat) (text : String) (ctx : Ctx) (cid : String)
    (conv : Conversation) (hcid : ctx.conversation_id = some cid)
    (hne : ¬ cid = "")
    (h : mgr.active_conversations.lookup cid = some conv) :
    process env mgr fresh_id now text (some ctx) =
      (let flow_type := ctx.flow_type.getD "default"
       let nlp_result := env.nlp_process text ctx
       let sentiment_result := env.sentiment_analyze text
       let intent := nlp_result.intent.getD "unknown"
       let transfer_required := transfer_check intent sentiment_result
       let next_state :=
         if transfer_required then "transfer"
         else resolve_next_state
           (state_of (get_flow flow_type) conv.state).next_states intent
       let response := get_response env.pick flow_type next_state
       ({ active_conversations := upsert mgr.active_conversations cid
            { conv with
              state := next_state
              last_updated := now
              history := conv.history ++
                [⟨"user", text, now,
                   ⟨nlp_result.intent, sentiment_result.sentiment⟩⟩,
                 ⟨"system", response, now, ⟨none, none⟩⟩] } },
        { conversation_id := conv.id
          intent := intent
          entities := nlp_result.entities
          sentiment := sentiment_result.sentiment
          sentiment_score := sentiment_result.score
          response := response
          next_state := next_state
          transfer_required := transfer_required })) := by
  simp [process, start_core_existing env mgr fresh_id now cid _ _ conv hne h,
    hcid, add_to_history]

/-- When a state name is absent from a flow, `state_of` agrees with
`state_of` at `"greeting"`. -/
theorem state_of_absent (flow : Flow) (state : String)
    (h : flow.lookup state = none) :
    state_of flow state = state_of flow "greeting" := by
  cases hg : flow.lookup "greeting" <;> simp [state_of, h, hg]

theorem getLastD_append_two {α : Type} (l : List α) (u s d : α) :
    (l ++ [u, s]).getLastD d = s := by
  rw [show l ++ [u, s] = (l ++ [u]) ++ [s] by simp]
  simp

theorem lookup_eq_none_of_not_mem_keys {α : Type} (m : List (String × α))
    (k : String) (h : k ∉ m.map Prod.fst) : m.lookup k = none := by
  induction m with
  | nil => simp [List.lookup]
  | cons p rest ih =>
    obtain ⟨k', v'⟩ := p
    simp only [List.map_cons, List.mem_cons] at h
    push_neg at h
    have hb : (k == k') = false := beq_eq_false_iff_ne.mpr h.1
    simp [List.lookup, hb, ih h.2]

theorem lookup_remove_key_none {α : Type} (m : List (String × α))
    (k : String) (hnd : (m.map Prod.fst).Nodup) :
    (remove_key m k).lookup k = none := by
  induction m with
  | nil => simp [remove_key, List.lookup]
  | cons p rest ih =>
    obtain ⟨k', v'⟩ := p
    simp only [List.map_cons, List.nodup_cons] at hnd
    by_cases hk : k' = k
    · subst hk
      simp only [remove_key, if_pos rfl]
      exact lookup_eq_none_of_not_mem_keys rest k' hnd.1
    · have hb : (k == k') = false :=
        beq_eq_false_iff_ne.mpr (fun hh => hk hh.symm)
      simp [remove_key, hk, List.lookup, hb, ih hnd.2]

/-- Full effect of `end_call` on a stored session: it succeeds whenever
the id is in the registry (its status is never examined), marks the
session completed, stamps the end time, recomputes the duration, and
stores the updated session back under the same key. -/
theorem end_call_spec (env : Env) (cm : CallMgr) (now : Nat)
    (call_id : String) (reason : Option String) (s : CallSession)
    (h : cm.call_sessions.lookup call_id = some s) :
    ((end_call env cm now call_id reason).2.toOption.map CallSession.status
      = some "completed") ∧
    ((end_call env cm now call_id reason).2.toOption.map CallSession.end_time
      = some (some now)) ∧
    ((end_call env cm now call_id reason).2.toOption.map CallSession.duration
      = some ((now : Int) - (s.start_time : Int))) ∧
    ((end_call env cm now call_id reason).1.call_sessions.lookup call_id
      = (end_call env cm now call_id reason).2.toOption) := by
  simp only [end_call, h]
  split
  · split <;> simp [Except.toOption, lookup_upsert_self]
  · simp [Except.toOption, lookup_upsert_self]

/-! ### Claims -/

/-- Claim C1: during `process`, the transfer decision is true iff the
extracted intent is `"transfer"`, or the sentiment is `"negative"` and
its score is below 0.2; it is false for every other combination. It is
the pure function `transfer_check` of the extracted intent and sentiment
result alone — in particular it does not depend on (and in this pure
embedding cannot mutate) the conversation state. -/
theorem transfer_decision_pure_iff (env : Env) (mgr : ConvMgr)
    (fresh_id : String) (now : Nat) (text : String) (context : Option Ctx) :
    (((process env mgr fresh_id now text context).2.transfer_required
        = true) ↔
      ((env.nlp_process text (context.getD Ctx.empty)).intent.getD "unknown"
          = "transfer" ∨
        ((env.sentiment_analyze text).sentiment = some "negative" ∧
          (env.sentiment_analyze text).score.getD (1/2) < (1/5 : ℚ)))) ∧
    ((process env mgr fresh_id now text context).2.transfer_required =
      transfer_check
        ((env.nlp_process text (context.getD Ctx.empty)).intent.getD
          "unknown")
        (env.sentiment_analyze text)) ∧
    (∀ mgr2 : ConvMgr,
      (process env mgr fresh_id now text context).2.transfer_required =
        (process env mgr2 fresh_id now text context).2.transfer_required) := by
  refine ⟨?_, ?_, ?_⟩
  · simp [process, transfer_check]
  · simp [process]
  · intro mgr2
    simp [process]

/-- Claim C2: when no transfer is required, `process` resolves the next
state from the current state's next-state list `N` by the ordered
tie-break: the extracted intent if it is in `N`; else `"information"` if
that is in `N` and the intent is `"unknown"`; else the first entry of a
non-empty `N`; else `"farewell"`. -/
theorem process_next_state_tie_break (env : Env) (mgr : ConvMgr)
    (fresh_id : String) (now : Nat) (text : String) (ctx : Ctx)
    (cid : String) (conv : Conversation) (N : List String) (intent : String)
    (hcid : ctx.conversation_id = some cid) (hne : ¬ cid = "")
    (h : mgr.active_conversations.lookup cid = some conv)
    (hN : (state_of (get_flow (ctx.flow_type.getD "default"))
        conv.state).next_states = N)
    (hintent : (env.nlp_process text ctx).intent.getD "unknown" = intent)
    (hnt : (process env mgr fresh_id now text (some ctx)).2.transfer_required
        = false) :
    (process env mgr fresh_id now text (some ctx)).2.next_state =
      (if intent ∈ N then intent
       else if "information" ∈ N ∧ intent = "unknown" then "information"
       else if N = [] then "farewell"
       else N.headD "") := by
  rw [process_existing env mgr fresh_id now text ctx cid conv hcid hne h]
    at hnt ⊢
  simp only [] at hnt ⊢
  rw [hnt]
  simp only [if_false, Bool.false_eq_true]
  subst hN
  subst hintent
  exact resolve_next_state_eq _ _

/-- Witness for C2: a conversation in state `"greeting"` with extracted
intent `"booking"` moves to `"booking"`. -/
theorem process_next_state_tie_break_witness :
    (process env_intent_booking mgr_one "f" 5 "hi" (some ctx_k1)).2.next_state
      = "booking" := by
  have h := process_next_state_tie_break env_intent_booking mgr_one "f" 5
    "hi" ctx_k1 "k1" conv_greeting
    ["information", "booking", "complaint", "farewell"] "booking"
    rfl (by decide) rfl rfl rfl (by decide)
  rw [h]
  decide

/-- Claim C3 counterexample: a second `end_call` on the already-completed
call `"c1"` does not fail with NotFound semantics and does not leave the
session unchanged — it succeeds again and recomputes the duration
(90 seconds after the first call, 190 after the second) and restamps the
end time (100, then 200). -/
theorem end_call_twice_succeeds_cex :
    (second_end.2.toOption.isSome = true) ∧
    (second_end.2.toOption.map CallSession.duration = some 190) ∧
    (first_end.2.toOption.map CallSession.duration = some 90) ∧
    ((second_end.1.call_sessions.lookup "c1").map CallSession.end_time
      = some (some 200)) ∧
    ((first_end.1.call_sessions.lookup "c1").map CallSession.end_time
      = some (some 100)) :=
  ⟨rfl, rfl, rfl, rfl, rfl⟩

/-- Claim C3 (amended): `end_call` rejects an operation only when the
call id is absent from the session registry; the session's status is
never examined, so for any stored session — terminal or not, in
particular one already completed by a previous `end_call` — it succeeds
again, setting the status to completed, restamping the end time, and
recomputing the duration (and summary). -/
theorem end_call_terminal_rerun (env : Env) (cm : CallMgr) (now : Nat)
    (call_id : String) (reason : Option String) (s : CallSession)
    (h : cm.call_sessions.lookup call_id = some s) :
    (∀ e, (end_call env cm now call_id reason).2 ≠ Except.error e) ∧
    ((end_call env cm now call_id reason).2.toOption.map CallSession.status
      = some "completed") ∧
    ((end_call env cm now call_id reason).2.toOption.map CallSession.end_time
      = some (some now)) ∧
    ((end_call env cm now call_id reason).2.toOption.map CallSession.duration
      = some ((now : Int) - (s.start_time : Int))) := by
  have hspec := end_call_spec env cm now call_id reason s h
  refine ⟨?_, hspec.1, hspec.2.1, hspec.2.2.1⟩
  intro e hcontra
  have hstat := hspec.1
  rw [hcontra] at hstat
  simp [Except.toOption] at hstat

/-- Witness for the amended C3: the second `end_call` on `"c1"` returns a
session rather than an error, with duration recomputed to 190. -/
theorem end_call_terminal_rerun_witness :
    (second_end.2 ≠ Except.error "Call session not found") ∧
    (second_end.2.toOption.map CallSession.duration = some 190) := by
  have h := end_call_terminal_rerun env_ok first_end.1 200 "c1" none
    first_end_session (by rfl)
  constructor
  · exact h.1 "Call session not found"
  · show (end_call env_ok first_end.1 200 "c1" none).2.toOption.map
      CallSession.duration = some 190
    rw [h.2.2.2]
    decide

/-- Claim C4: when the transcription collaborator errors, `process_speech`
returns exactly that error and leaves the whole manager state — in
particular the session's status and transcript — unchanged. -/
theorem process_speech_transcription_error (env : Env) (cm : CallMgr)
    (fresh : String) (now : Nat) (call_id audio : String) (s : CallSession)
    (e : String) (hs : cm.call_sessions.lookup call_id = some s)
    (he : env.transcribe audio = Except.error e) :
    process_speech env cm fresh now call_id audio
      = (cm, TurnResult.err e) := by
  simp [process_speech, hs, he]

/-- Witness for C4: a failing transcription collaborator surfaces its
error on call `"c1"` with the state untouched. -/
theorem process_speech_transcription_error_witness :
    process_speech env_stt_down st_one "u2" 20 "c1" "audio-bytes"
      = (st_one, TurnResult.err "API key not provided") :=
  process_speech_transcription_error env_stt_down st_one "u2" 20 "c1"
    "audio-bytes" run_incoming.2 "API key not provided" rfl rfl

/-- Claim C5 counterexample: with a collaborator extracting intent
`"transfer"` and transcription yielding exactly the synthetic text
`"Pressed 5"`, `process_speech` transfers the call (session becomes
`"transferred"`), while `process_dtmf` with digits `"5"` — feeding the
same text `"Pressed 5"` to the same conversation engine — returns a
continue action and leaves the session status unchanged, so the two
pipelines are not identical and the transfer case is bypassed. -/
theorem process_dtmf_not_like_speech_cex :
    (speech_run.2 = TurnResult.transfer "+15551234567"
      "Transferring to a human representative at +15551234567.") ∧
    (dtmf_run.2 = TurnResult.cont
      "I'll connect you with a human representative right away. Please hold."
      "transfer") ∧
    ((speech_run.1.call_sessions.lookup "c1").map CallSession.status
      = some "transferred") ∧
    ((dtmf_run.1.call_sessions.lookup "c1").map CallSession.status
      = some "initiated") :=
  ⟨rfl, rfl, rfl, rfl⟩

/-- Claim C5 (amended): `process_dtmf` feeds `"Pressed <digits>"` through
the same `process` path as `process_speech`, but unlike `process_speech`
it never checks the transfer flag or a `"farewell"` next state: whenever
the session exists it returns a continue action carrying the conversation
result, and the session status is left unchanged (no transfer, no call
end). -/
theorem process_dtmf_always_continue (env : Env) (cm : CallMgr)
    (fresh : String) (now : Nat) (call_id digits : String) (s : CallSession)
    (h : cm.call_sessions.lookup call_id = some s) :
    ((process_dtmf env cm fresh now call_id digits).2 =
      TurnResult.cont
        (process env cm.conv fresh now s!"Pressed {digits}"
          (some ⟨s.conversation_id, some s.flow_type, some call_id, none,
            some "dtmf"⟩)).2.response
        (process env cm.conv fresh now s!"Pressed {digits}"
          (some ⟨s.conversation_id, some s.flow_type, some call_id, none,
            some "dtmf"⟩)).2.next_state) ∧
    (((process_dtmf env cm fresh now call_id
        digits).1.call_sessions.lookup call_id).map CallSession.status
      = some s.status) := by
  simp [process_dtmf, h, lookup_upsert_self, add_to_transcript]

/-- Witness for the amended C5: `process_dtmf` on `"c1"` with a
transfer-extracting collaborator still returns a continue action and
leaves the status `"initiated"`. -/
theorem process_dtmf_always_continue_witness :
    ((process_dtmf env_intent_transfer st_one "u2" 20 "c1" "5").2 =
      TurnResult.cont
        "I'll connect you with a human representative right away. Please hold."
        "transfer") ∧
    (((process_dtmf env_intent_transfer st_one "u2" 20 "c1"
        "5").1.call_sessions.lookup "c1").map CallSession.status
      = some "initiated") := by
  have h := process_dtmf_always_continue env_intent_transfer st_one "u2" 20
    "c1" "5" run_incoming.2 (by rfl)
  constructor
  · rw [h.1]
    decide
  · rw [h.2]
    decide

/-- Claim C6: `start_conversation` with an id already in the active set
returns the stored instance and leaves the manager unchanged, whatever
flow type and context are supplied; and starting twice with the same id
equals starting once. -/
theorem start_conversation_idempotent (env : Env) (mgr : ConvMgr)
    (fresh_id : String) (now : Nat) (cid : String) (flow_type : String)
    (context : Option Ctx) (conv : Conversation) (hne : ¬ cid = "")
    (h : mgr.active_conversations.lookup cid = some conv) :
    (start_conversation env mgr fresh_id now (some cid) flow_type context
      = (mgr, conv)) ∧
    (∀ (mgr0 : ConvMgr) (f0 : String) (n0 : Nat) (ft0 : String)
        (c0 : Option Ctx) (f1 : String) (n1 : Nat) (ft1 : String)
        (c1 : Option Ctx),
      start_conversation env
          (start_conversation env mgr0 f0 n0 (some cid) ft0 c0).1
          f1 n1 (some cid) ft1 c1
        = start_conversation env mgr0 f0 n0 (some cid) ft0 c0) := by
  constructor
  · simp [start_conversation,
      start_core_existing env mgr fresh_id now cid flow_type context conv
        hne h]
  · intro mgr0 f0 n0 ft0 c0 f1 n1 ft1 c1
    have hr := (start_core_registers env mgr0 f0 n0 cid ft0 c0 hne).1
    unfold start_conversation
    rw [start_core_existing env _ f1 n1 cid ft1 c1 _ hne hr]

/-- Witness for C6: starting the registered conversation `"k1"` again —
even with a different flow type — returns it unchanged; and a repeated
start from the empty manager equals a single start. -/
theorem start_conversation_idempotent_witness :
    (start_conversation env_ok mgr_one "f" 5 (some "k1") "default" none
      = (mgr_one, conv_greeting)) ∧
    (start_conversation env_ok
        (start_conversation env_ok ⟨[]⟩ "g" 7 (some "k1") "default" none).1
        "g2" 8 (some "k1") "real_estate" none
      = start_conversation env_ok ⟨[]⟩ "g" 7 (some "k1") "default" none) := by
  have h := start_conversation_idempotent env_ok mgr_one "f" 5 "k1"
    "default" none conv_greeting (by decide) rfl
  exact ⟨h.1, h.2 ⟨[]⟩ "g" 7 "default" none "g2" 8 "real_estate" none⟩

/-- Claim C7: when the computed next state is absent from the flow,
`process` still stores that computed name as the conversation's current
state, while the appended system response text is selected (by the
response-selection collaborator) from the flow's `"greeting"` state's
candidate responses. -/
theorem process_absent_next_state_greeting_fallback (env : Env)
    (mgr : ConvMgr) (fresh_id : String) (now : Nat) (text : String)
    (ctx : Ctx) (cid : String) (conv : Conversation)
    (hcid : ctx.conversation_id = some cid) (hne : ¬ cid = "")
    (h : mgr.active_conversations.lookup cid = some conv)
    (habs : (get_flow (ctx.flow_type.getD "default")).lookup
        ((process env mgr fresh_id now text (some ctx)).2.next_state)
      = none) :
    (((process env mgr fresh_id now text
        (some ctx)).1.active_conversations.lookup cid).map
        Conversation.state =
      some ((process env mgr fresh_id now text (some ctx)).2.next_state)) ∧
    ((process env mgr fresh_id now text (some ctx)).2.response =
      env.pick (state_of (get_flow (ctx.flow_type.getD "default"))
        "greeting").responses) ∧
    (((process env mgr fresh_id now text
        (some ctx)).1.active_conversations.lookup cid).map
        (fun c => (c.history.getLastD ⟨"", "", 0, ⟨none, none⟩⟩).text)
      = some ((process env mgr fresh_id now text (some ctx)).2.response)) := by
  rw [process_existing env mgr fresh_id now text ctx cid conv hcid hne h]
    at habs ⊢
  simp only [] at habs ⊢
  refine ⟨?_, ?_, ?_⟩
  · rw [lookup_upsert_self]
    rfl
  · exact congrArg (fun sd => env.pick sd.responses) (state_of_absent _ _ habs)
  · simp [lookup_upsert_self, getLastD_append_two]

/-- Witness for C7: from state `"information"` with intent `"unknown"`,
the computed next state `"information_detail"` is absent from the default
flow; it is stored as the current state while the response comes from the
greeting candidates. -/
theorem process_absent_next_state_greeting_fallback_witness :
    (((process env_ok mgr_two "f" 5 "hi"
        (some ctx_k2)).1.active_conversations.lookup "k2").map
        Conversation.state = some "information_detail") ∧
    ((process env_ok mgr_two "f" 5 "hi" (some ctx_k2)).2.response =
      "Hello! Thank you for calling. How can I assist you today?") := by
  have h := process_absent_next_state_greeting_fallback env_ok mgr_two "f" 5
    "hi" ctx_k2 "k2" conv_information rfl (by decide) rfl (by decide)
  constructor
  · rw [h.1]
    decide
  · rw [h.2.1]
    decide

/-- Claim C8: `make_outbound_call` returns the telephony dial error as-is
with the whole state (session registry included) unchanged; on a
successful dial it registers a session whose status is directly
`"in-progress"`. -/
theorem make_outbound_call_dial_spec (env : Env) (cm : CallMgr)
    (fresh : String) (now : Nat) (phone : String) (context : Option Ctx) :
    (∀ e, env.make_call phone = Except.error e →
      make_outbound_call env cm fresh now phone context
        = (cm, Except.error e)) ∧
    (∀ d, env.make_call phone = Except.ok d →
      ((make_outbound_call env cm fresh now phone
          context).2.toOption.map CallSession.status = some "in-progress") ∧
      (((make_outbound_call env cm fresh now phone
          context).1.call_sessions.lookup d.call_id).map CallSession.status
        = some "in-progress")) := by
  constructor
  · intro e he
    simp [make_outbound_call, he]
  · intro d hd
    simp only [make_outbound_call, hd]
    constructor
    · split
      · split <;> simp [Except.toOption]
      · simp [Except.toOption]
    · split
      · split <;> simp [lookup_upsert_self]
      · simp [lookup_upsert_self]

/-- Witness for C8: a failing dial collaborator yields the error with no
session created, and a successful dial yields a stored session in status
`"in-progress"`. -/
theorem make_outbound_call_dial_spec_witness :
    (make_outbound_call env_dial_error cm_start "conv9" 30 "+15559998888"
        none = (cm_start, Except.error "No carrier available")) ∧
    ((make_outbound_call env_ok cm_start "conv9" 30 "+15559998888"
        none).2.toOption.map CallSession.status = some "in-progress") ∧
    (((make_outbound_call env_ok cm_start "conv9" 30 "+15559998888"
        none).1.call_sessions.lookup "out1").map CallSession.status
      = some "in-progress") := by
  refine ⟨?_, ?_, ?_⟩
  · exact (make_outbound_call_dial_spec env_dial_error cm_start "conv9" 30
      "+15559998888" none).1 "No carrier available" rfl
  · exact ((make_outbound_call_dial_spec env_ok cm_start "conv9" 30
      "+15559998888" none).2 ⟨"out1", "+15550000000", "+15559998888"⟩
      rfl).1
  · exact ((make_outbound_call_dial_spec env_ok cm_start "conv9" 30
      "+15559998888" none).2 ⟨"out1", "+15550000000", "+15559998888"⟩
      rfl).2

/-- Claim C9 counterexample: `end_call` on `"c1"` succeeds, yet the
session is still stored in the session registry afterwards — the call
half of the removal claim is false on the code. -/
theorem end_call_keeps_session_cex :
    (first_end.2.toOption.isSome = true) ∧
    ((first_end.1.call_sessions.lookup "c1").isSome = true) :=
  ⟨rfl, rfl⟩

/-- Claim C9 (amended): `end_conversation` removes and returns the
conversation, whose id then no longer resolves; `end_call`, by contrast,
does not remove the session — it remains stored under its id with status
`"completed"`, and it is excluded from the active-call listing only
because `get_active_calls` filters out terminal statuses. -/
theorem end_registry_removal (mgr : ConvMgr) (conversation_id : String)
    (conv : Conversation)
    (hnd : (mgr.active_conversations.map Prod.fst).Nodup)
    (h : mgr.active_conversations.lookup conversation_id = some conv) :
    ((end_conversation mgr conversation_id).2 = some conv) ∧
    ((end_conversation mgr
        conversation_id).1.active_conversations.lookup conversation_id
      = none) ∧
    (∀ (env : Env) (cm : CallMgr) (now : Nat) (call_id : String)
        (reason : Option String) (s : CallSession),
      cm.call_sessions.lookup call_id = some s →
      ((end_call env cm now call_id
          reason).1.call_sessions.lookup call_id).map CallSession.status
        = some "completed") ∧
    (∀ (cm : CallMgr) (k : String) (s : CallSession),
      (k, s) ∈ get_active_calls cm →
      s.status ≠ "completed" ∧ s.status ≠ "failed"
        ∧ s.status ≠ "transferred") := by
  refine ⟨?_, ?_, ?_, ?_⟩
  · simp [end_conversation, h]
  · simp only [end_conversation, h]
    exact lookup_remove_key_none _ _ hnd
  · intro env cm now call_id reason s hs
    have hspec := end_call_spec env cm now call_id reason s hs
    rw [hspec.2.2.2, hspec.1]
  · intro cm k s hmem
    simp only [get_active_calls, List.mem_filter] at hmem
    have hstat := hmem.2
    simp [List.contains, List.elem_iff] at hstat
    exact ⟨hstat.1, hstat.2.1, hstat.2.2⟩

/-- Witness for the amended C9: ending conversation `"k1"` removes it;
ending call `"c1"` keeps it stored with status `"completed"`. -/
theorem end_registry_removal_witness :
    ((end_conversation mgr_one "k1").2 = some conv_greeting) ∧
    ((end_conversation mgr_one "k1").1.active_conversations.lookup "k1"
      = none) ∧
    (((end_call env_ok st_one 100 "c1"
        none).1.call_sessions.lookup "c1").map CallSession.status
      = some "completed") := by
  have h := end_registry_removal mgr_one "k1" conv_greeting (by decide) rfl
  exact ⟨h.1, h.2.1, h.2.2.1 env_ok st_one 100 "c1" none run_incoming.2 rfl⟩

/-- Claim C10: on an existing conversation, `process` appends exactly two
history entries — first a user turn carrying the extracted intent and
sentiment as metadata, then a system turn carrying the selected response —
and changes nothing else about the history (all previous entries are
preserved as a prefix). -/
theorem process_appends_two_turns (env : Env) (mgr : ConvMgr)
    (fresh_id : String) (now : Nat) (text : String) (ctx : Ctx)
    (cid : String) (conv : Conversation)
    (hcid : ctx.conversation_id = some cid) (hne : ¬ cid = "")
    (h : mgr.active_conversations.lookup cid = some conv) :
    (process env mgr fresh_id now text
        (some ctx)).1.active_conversations.lookup cid =
      some { conv with
        state := (process env mgr fresh_id now text (some ctx)).2.next_state
        last_updated := now
        history := conv.history ++
          [⟨"user", text, now,
             ⟨(env.nlp_process text ctx).intent,
              (env.sentiment_analyze text).sentiment⟩⟩,
           ⟨"system",
             (process env mgr fresh_id now text (some ctx)).2.response,
             now, ⟨none, none⟩⟩] } := by
  rw [process_existing env mgr fresh_id now text ctx cid conv hcid hne h]
  simp only []
  rw [lookup_upsert_self]

/-- Witness for C10: processing `"hi"` on the registered greeting
conversation appends exactly the user turn (with intent and sentiment
metadata) and the system response turn. -/
theorem process_appends_two_turns_witness :
    (process env_intent_booking mgr_one "f" 5 "hi"
        (some ctx_k1)).1.active_conversations.lookup "k1" =
      some { conv_greeting with
        state := (process env_intent_booking mgr_one "f" 5 "hi"
          (some ctx_k1)).2.next_state
        last_updated := 5
        history := conv_greeting.history ++
          [⟨"user", "hi", 5, ⟨some "booking", some "neutral"⟩⟩,
           ⟨"system", (process env_intent_booking mgr_one "f" 5 "hi"
             (some ctx_k1)).2.response, 5, ⟨none, none⟩⟩] } :=
  process_appends_two_turns env_intent_booking mgr_one "f" 5 "hi" ctx_k1
    "k1" conv_greeting rfl (by decide) rfl

end AICallCenter
